import Mathlib

/-!
Shallow embedding of the doodle-jump simulation core
(`src/sdk_apps/doodle-jump/main.c`).

Modelling conventions:
* C `float` quantities are modelled as exact rationals (`ℚ`); C `int`
  quantities as `ℤ` (counters that are provably non-negative as `ℕ`).
* The fixed C arrays (`platforms[100]`, `projectiles[10]`, `monsters[20]`)
  are modelled as lists read with `List.getD` and written with `List.set`
  together with the live-count fields; the C code only ever indexes below
  the relevant capacity.
* Randomness (`SDL_rand(n)` / `rand()`) is modelled by an oracle stream of
  naturals carried in the state: each draw consumes the head reduced
  modulo the requested bound, in exactly the order the C code draws.
* The float-to-int casts in the C code truncate toward zero (`ratTrunc`).
* `sqrtf(dx*dx+dy*dy) < d` (in `is_monster_nearby`) is modelled by the
  equivalent square comparison `dx*dx+dy*dy < d*d` (both sides of the C
  comparison are non-negative and squaring is monotone).
-/

/-- Game constants from the `#define` block of main.c. -/
def WINDOW_WIDTH : ℚ := 720

def WINDOW_HEIGHT : ℚ := 720

def PLAYER_WIDTH : ℚ := 40

def PLAYER_HEIGHT : ℚ := 40

def PLATFORM_WIDTH : ℚ := 65

def PLATFORM_HEIGHT : ℚ := 15

def MAX_PLATFORMS : ℕ := 100

def PLATFORM_SPACING_MIN : ℚ := 70

def GRAVITY : ℚ := 4/5

def JUMP_FORCE : ℚ := -18

def SPRING_JUMP_FORCE : ℚ := -22

def MAX_PROJECTILES : ℕ := 10

def PROJECTILE_SPEED : ℚ := -7

def PROJECTILE_WIDTH : ℚ := 8

def PROJECTILE_HEIGHT : ℚ := 16

def MAX_MONSTERS : ℕ := 20

def MONSTER_WIDTH : ℚ := 70

def MONSTER_HEIGHT : ℚ := 90

def MONSTER_SPAWN_SCORE_MIN : ℤ := 100

def MONSTER_MAX_SCORE : ℤ := 5000

def MONSTER_SPEED : ℚ := 3/100

/-- Truncation toward zero, the semantics of the C cast `(int)` applied to a
float value. -/
def ratTrunc (q : ℚ) : ℤ := if q < 0 then ⌈q⌉ else ⌊q⌋

/-- One draw from the random oracle stream: `SDL_rand n` (and `rand() % n`)
yields the head of the stream reduced mod `n` and the remaining stream. -/
def rngNext (r : List ℕ) (n : ℕ) : ℕ × List ℕ := (r.headI % n, r.tail)

/-- Apply `f` to the first `n` entries of `l` (a C loop `for i < n` mutating
`a[i]` in place), leaving the rest of the array untouched. -/
def mapUpTo {α : Type} (f : α → α) (n : ℕ) (l : List α) : List α :=
  (l.take n).map f ++ l.drop n

/-- In-place pool compaction (lines 827-837 and 926-936 of main.c): active
entries of the live prefix are shifted down preserving order, the live count
becomes the number kept, and the array cells from the new count up keep their
previous contents. -/
def compact {α : Type} (keep : α → Bool) (l : List α) (n : ℕ) : List α × ℕ :=
  let c := (l.take n).filter keep
  (c ++ l.drop c.length, c.length)

/-- Platform type enum. -/
inductive PlatformType : Type where
  | NORMAL
  | MOVING
  | BREAKABLE
  | SPRING
deriving DecidableEq

/-- Monster type enum. -/
inductive MonsterType : Type where
  | BASIC
deriving DecidableEq

/-- Projectile record. -/
structure Projectile : Type where
  x : ℚ
  y : ℚ
  vy : ℚ
  active : Bool
deriving DecidableEq

instance : Inhabited Projectile := ⟨⟨0, 0, 0, false⟩⟩

/-- Monster record. -/
structure Monster : Type where
  x : ℚ
  y : ℚ
  vx : ℚ
  width : ℚ
  height : ℚ
  type : MonsterType
  active : Bool
  move_direction : ℚ
deriving DecidableEq

instance : Inhabited Monster := ⟨⟨0, 0, 0, 0, 0, .BASIC, false, 0⟩⟩

/-- Platform record. -/
structure Platform : Type where
  x : ℚ
  y : ℚ
  width : ℚ
  height : ℚ
  type : PlatformType
  active : Bool
  move_direction : ℚ
  move_speed : ℚ
deriving DecidableEq

instance : Inhabited Platform := ⟨⟨0, 0, 0, 0, .NORMAL, false, 0, 0⟩⟩

/-- Player record. -/
structure Player : Type where
  x : ℚ
  y : ℚ
  vx : ℚ
  vy : ℚ
  width : ℚ
  height : ℚ
  on_ground : Bool
  facing_direction : ℤ
  is_shooting : Bool
  shoot_timer : ℚ
deriving DecidableEq

instance : Inhabited Player := ⟨⟨0, 0, 0, 0, 0, 0, false, 1, false, 0⟩⟩

/-- The simulation-relevant part of the C `GameState` record (rendering
handles and input flags are external collaborators), plus the random oracle
stream. -/
structure GameState : Type where
  player : Player
  platforms : List Platform
  num_platforms : ℕ
  projectiles : List Projectile
  num_projectiles : ℕ
  monsters : List Monster
  num_monsters : ℕ
  camera_y : ℚ
  score : ℤ
  platforms_landed : ℤ
  last_platform_landed : ℤ
  game_running : Bool
  rng : List ℕ
deriving DecidableEq

/-- check_platform_collision (main.c lines 545-564): an inactive platform
never collides; the player must be falling (vy > 0), the AABBs must overlap,
and the player's top edge must be above the platform's top edge. -/
def check_platform_collision (player : Player) (platform : Platform) : Bool :=
  if !platform.active then false
  else if decide (player.vy ≤ 0) then false
  else if decide (player.x < platform.x + platform.width) &&
          decide (player.x + player.width > platform.x) &&
          decide (player.y < platform.y + platform.height) &&
          decide (player.y + player.height > platform.y) then
    decide (player.y < platform.y)
  else false

/-- update_camera (main.c lines 771-781): the candidate offset follows the
player; it is adopted only when numerically smaller than the current one. -/
def update_camera (game : GameState) : GameState :=
  let camera_offset : ℚ := 50 + PLATFORM_HEIGHT
  let target_camera_y := game.player.y - WINDOW_HEIGHT / 2 + camera_offset
  if target_camera_y < game.camera_y then { game with camera_y := target_camera_y }
  else game

/-- Gravity and position integration for the player
(main.c lines 1017-1022). -/
def integratePlayer (p : Player) (dt : ℚ) : Player :=
  let vy := p.vy + GRAVITY * dt
  { p with vy := vy, x := p.x + p.vx * dt, y := p.y + vy * dt }

/-- Horizontal wrap applied to the player by update_game
(main.c lines 1024-1029). -/
def wrapPlayerX (p : Player) : Player :=
  if p.x + p.width < 0 then { p with x := WINDOW_WIDTH }
  else if p.x > WINDOW_WIDTH then { p with x := -p.width }
  else p

/-- Per-platform movement step of update_game (main.c lines 1032-1053):
active MOVING platforms advance and reflect off the screen edges. -/
def movePlatform (score : ℤ) (dt : ℚ) (platform : Platform) : Platform :=
  if platform.active && decide (platform.type = PlatformType.MOVING) then
    let score_multiplier : ℚ := 1 + (score : ℚ) / 100
    let actual_speed := platform.move_speed * score_multiplier
    let x := platform.x + platform.move_direction * actual_speed * dt
    if x ≤ 0 then { platform with x := 0, move_direction := 1 }
    else if x + platform.width ≥ WINDOW_WIDTH then
      { platform with x := WINDOW_WIDTH - platform.width, move_direction := -1 }
    else { platform with x := x }
  else platform

/-- Platform cull of update_game (main.c lines 1056-1061): platforms far
below the camera are deactivated in place. -/
def cullPlatform (camera_y : ℚ) (platform : Platform) : Platform :=
  if platform.active && decide (platform.y > camera_y + WINDOW_HEIGHT + 200) then
    { platform with active := false }
  else platform

/-- Type assignment and kinematic fields for a freshly generated platform
(the identical blocks at main.c lines 442-461 and 510-529): a weighted draw
picks the type; MOVING platforms draw direction and a speed clamped into
[0.5, 1]; the other types get zero direction and speed. -/
def assignTypeKinematics (score : ℤ) (rng : List ℕ) (platform : Platform) :
    Platform × List ℕ :=
  let t := rngNext rng 100
  if t.1 < 85 then
    ({ platform with type := .NORMAL, move_direction := 0, move_speed := 0 }, t.2)
  else if t.1 < 90 then
    let d := rngNext t.2 2
    let s := rngNext d.2 4
    let speed0 : ℚ := (score : ℚ) / 800 + (s.1 : ℚ) / 20
    let speed := if speed0 < 1/2 then (1/2 : ℚ)
      else if speed0 > 1 then (1 : ℚ) else speed0
    ({ platform with
        type := .MOVING,
        move_direction := if d.1 = 0 then 1 else -1,
        move_speed := speed }, s.2)
  else if t.1 < 95 then
    ({ platform with type := .BREAKABLE, move_direction := 0, move_speed := 0 }, t.2)
  else
    ({ platform with type := .SPRING, move_direction := 0, move_speed := 0 }, t.2)

/-- Next-row spacing with difficulty scaling (main.c lines 463-468 and
531-536): base spacing plus a random part plus a height term capped at 30. -/
def nextSpacing (current_y : ℚ) (spacingDraw : ℕ) : ℚ :=
  let height_factor : ℚ := (-current_y) / 500
  let additional : ℤ := min (ratTrunc (height_factor * 15)) 30
  PLATFORM_SPACING_MIN + (spacingDraw : ℚ) + (additional : ℚ)

/-- Body shared by the two generation loops: draw an x position, build the
platform, assign type and kinematics. -/
def freshPlatform (score : ℤ) (current_y : ℚ) (rng : List ℕ) :
    Platform × List ℕ :=
  let xr := rngNext rng 655
  assignTypeKinematics score xr.2
    { x := (xr.1 : ℚ), y := current_y, width := PLATFORM_WIDTH,
      height := PLATFORM_HEIGHT, type := PlatformType.NORMAL, active := true,
      move_direction := (0 : ℚ), move_speed := (0 : ℚ) }

/-- Initial-generation loop (main.c lines 432-469): for `i` from 1 while
`i < 100` and `current_y > -1000`, append a fresh platform at the next free
index and step the row upward. The countdown argument is the number of
remaining loop indices (99 at the first iteration). -/
def genInitialLoop : ℕ → ℚ → ℤ → List Platform → ℕ → List ℕ →
    List Platform × ℕ × List ℕ
  | 0, _, _, plats, num, rng => (plats, num, rng)
  | fuel + 1, current_y, score, plats, num, rng =>
    if current_y > -1000 then
      let p := freshPlatform score current_y rng
      let sp := rngNext p.2 40
      genInitialLoop fuel (current_y - nextSpacing current_y sp.1) score
        (plats.set num p.1) (num + 1) sp.2
    else (plats, num, rng)

/-- Initial generation (main.c lines 414-469): reset the pool, install the
fixed centered starting platform, then fill rows upward. -/
def generateInitial (game : GameState) : GameState :=
  let start : Platform :=
    { x := 328, y := WINDOW_HEIGHT - PLATFORM_HEIGHT - 50,
      width := PLATFORM_WIDTH, height := PLATFORM_HEIGHT,
      type := .NORMAL, active := true, move_direction := 0, move_speed := 0 }
  let r := genInitialLoop 99 (start.y - PLATFORM_SPACING_MIN) game.score
    (game.platforms.set 0 start) 1 game.rng
  { game with platforms := r.1, num_platforms := r.2.1, rng := r.2.2 }

/-- Highest (most negative y) active platform in the live prefix, seeded with
the camera offset (main.c lines 473-478). -/
def findHighest (l : List Platform) (n : ℕ) (camera_y : ℚ) : ℚ :=
  (l.take n).foldl (fun h p => if p.active && decide (p.y < h) then p.y else h)
    camera_y

/-- First inactive slot in the live prefix (main.c lines 486-492). -/
def findInactiveSlot (l : List Platform) (n : ℕ) : Option ℕ :=
  (List.range n).find? (fun i => !(l.getD i default).active)

/-- Continuous-generation loop (main.c lines 484-540): while the row is above
the target and the pool is not full, reuse an inactive slot (or grow the
count) for a fresh platform and step the row upward. The C loop performs at
most `#inactive slots + (100 - num)` iterations, so fuel 201 is never
exhausted; running out of fuel acts as the (unreachable) `break`. -/
def genContLoop : ℕ → ℚ → ℚ → ℤ → List Platform → ℕ → List ℕ →
    List Platform × ℕ × List ℕ
  | 0, _, _, _, plats, num, rng => (plats, num, rng)
  | fuel + 1, current_y, target, score, plats, num, rng =>
    if current_y > target ∧ num < MAX_PLATFORMS then
      let slot := (findInactiveSlot plats num).getD num
      let p := freshPlatform score current_y rng
      let sp := rngNext p.2 40
      genContLoop fuel (current_y - nextSpacing current_y sp.1) target score
        (plats.set slot p.1) (if slot = num then num + 1 else num) sp.2
    else (plats, num, rng)

/-- Continuous generation during gameplay (main.c lines 470-541). -/
def generateContinuous (game : GameState) : GameState :=
  let highest_y := findHighest game.platforms game.num_platforms game.camera_y
  let target_height := game.camera_y - WINDOW_HEIGHT - 200
  let r := genContLoop 201 (highest_y - PLATFORM_SPACING_MIN) target_height
    game.score game.platforms game.num_platforms game.rng
  { game with platforms := r.1, num_platforms := r.2.1, rng := r.2.2 }

/-- generate_platforms (main.c lines 413-542), unified entry point. -/
def generate_platforms (game : GameState) (is_initial_generation : Bool) :
    GameState :=
  if is_initial_generation then generateInitial game
  else generateContinuous game

/-- Index of the first platform in the live prefix the player lands on
(the scan of main.c lines 1068-1069). -/
def landingIndex (player : Player) (plats : List Platform) (n : ℕ) : Option ℕ :=
  (List.range n).find? (fun i => check_platform_collision player (plats.getD i default))

/-- Collision and landing response of update_game (main.c lines 1066-1097):
clear on_ground, find the first qualifying platform, snap the player onto its
top, apply the type-dependent impulse, break a BREAKABLE platform, and count
the landing when the index differs from the last landed one. -/
def collisionPhase (game : GameState) : GameState :=
  let player0 := { game.player with on_ground := false }
  match landingIndex game.player game.platforms game.num_platforms with
  | none => { game with player := player0 }
  | some i =>
    let platform := game.platforms.getD i default
    let jump_force : ℚ :=
      if platform.type = PlatformType.MOVING then JUMP_FORCE * (11/10)
      else if platform.type = PlatformType.SPRING then SPRING_JUMP_FORCE
      else JUMP_FORCE
    let player1 := { player0 with
      y := platform.y - player0.height,
      vy := jump_force, on_ground := true }
    let platforms1 :=
      if platform.type = PlatformType.BREAKABLE then
        game.platforms.set i { platform with active := false }
      else game.platforms
    if (i : ℤ) ≠ game.last_platform_landed then
      { game with
        player := player1, platforms := platforms1,
        platforms_landed := game.platforms_landed + 1,
        last_platform_landed := (i : ℤ) }
    else
      { game with player := player1, platforms := platforms1 }

/-- shoot_projectile (main.c lines 784-801): no-op while the shoot cooldown
is active or the pool is full; otherwise create one active projectile above
the player and restart the cooldown. -/
def shoot_projectile (game : GameState) : GameState :=
  if game.player.is_shooting || decide (game.num_projectiles ≥ MAX_PROJECTILES) then
    game
  else
    let projectile : Projectile :=
      { x := game.player.x + game.player.width / 2 - PROJECTILE_WIDTH / 2,
        y := game.player.y, vy := PROJECTILE_SPEED, active := true }
    { game with
      projectiles := game.projectiles.set game.num_projectiles projectile,
      num_projectiles := game.num_projectiles + 1,
      player := { game.player with is_shooting := true, shoot_timer := 32 } }

/-- update_projectiles (main.c lines 803-838): tick the shoot cooldown, move
live projectiles, cull those far above the camera, and compact the pool. -/
def update_projectiles (game : GameState) (delta_time : ℚ) : GameState :=
  let player :=
    if game.player.is_shooting then
      let t := game.player.shoot_timer - delta_time
      if t ≤ 0 then { game.player with shoot_timer := t, is_shooting := false }
      else { game.player with shoot_timer := t }
    else game.player
  let step := fun (pr : Projectile) =>
    if pr.active then
      let y := pr.y + pr.vy * delta_time
      if y + PROJECTILE_HEIGHT < game.camera_y - 100 then
        { pr with y := y, active := false }
      else { pr with y := y }
    else pr
  let moved := mapUpTo step game.num_projectiles game.projectiles
  let c := compact (fun pr => pr.active) moved game.num_projectiles
  { game with player := player, projectiles := c.1, num_projectiles := c.2 }

/-- Anti-clustering check before a monster spawn (main.c lines 864-878); the
C distance comparison via sqrtf is modelled by comparing squares. -/
def is_monster_nearby (l : List Monster) (n : ℕ) (x y min_distance : ℚ) : Bool :=
  (List.range n).any (fun i =>
    let m := l.getD i default
    m.active &&
      decide ((m.x - x) * (m.x - x) + (m.y - y) * (m.y - y) <
        min_distance * min_distance))

/-- spawn_monster (main.c lines 881-900): silent no-op at capacity or near an
existing monster; otherwise claim the next slot with a random direction. -/
def spawn_monster (game : GameState) (x y : ℚ) : GameState :=
  if game.num_monsters ≥ MAX_MONSTERS then game
  else if is_monster_nearby game.monsters game.num_monsters x y 150 then game
  else
    let d := rngNext game.rng 2
    let monster : Monster :=
      { x := x, y := y, vx := MONSTER_SPEED, width := MONSTER_WIDTH,
        height := MONSTER_HEIGHT, type := MonsterType.BASIC, active := true,
        move_direction := (d.1 : ℚ) * 2 - 1 }
    { game with
      monsters := game.monsters.set game.num_monsters monster,
      num_monsters := game.num_monsters + 1, rng := d.2 }

/-- Per-monster movement, edge bounce and cull (main.c lines 904-924). -/
def monsterStep (camera_y : ℚ) (delta_time : ℚ) (m : Monster) : Monster :=
  if m.active then
    let x := m.x + m.move_direction * m.vx * delta_time * 60
    let m1 :=
      if x ≤ 0 then { m with x := 0, move_direction := 1 }
      else if x + m.width ≥ WINDOW_WIDTH then
        { m with x := WINDOW_WIDTH - m.width, move_direction := -1 }
      else { m with x := x }
    if m1.y > camera_y + WINDOW_HEIGHT + 200 then { m1 with active := false }
    else m1
  else m

/-- update_monsters (main.c lines 902-972): move and cull monsters, compact
the pool, then run the score-gated, screen-gated random spawn check. -/
def update_monsters (game : GameState) (delta_time : ℚ) : GameState :=
  let moved := mapUpTo (monsterStep game.camera_y delta_time) game.num_monsters
    game.monsters
  let c := compact (fun m => m.active) moved game.num_monsters
  let g1 := { game with monsters := c.1, num_monsters := c.2 }
  if g1.score ≥ MONSTER_SPAWN_SCORE_MIN then
    let monsters_on_screen := (List.range g1.num_monsters).countP (fun i =>
      let m := g1.monsters.getD i default
      m.active && decide (m.y ≥ g1.camera_y - WINDOW_HEIGHT) &&
        decide (m.y ≤ g1.camera_y + WINDOW_HEIGHT))
    if monsters_on_screen = 0 then
      let spawn_chance : ℚ :=
        if g1.score ≥ MONSTER_MAX_SCORE then 1/200
        else 1/2000 +
          ((g1.score - MONSTER_SPAWN_SCORE_MIN : ℤ) : ℚ) / 4900 * (9/2000)
      let roll := rngNext g1.rng 2147483648
      let g2 := { g1 with rng := roll.2 }
      if (roll.1 : ℚ) / 2147483647 < spawn_chance then
        let xr := rngNext g2.rng 650
        spawn_monster { g2 with rng := xr.2 } (xr.1 : ℚ) (g2.camera_y - 100)
      else g2
    else g1
  else g1

/-- check_monster_collision (main.c lines 997-1002). -/
def check_monster_collision (player : Player) (m : Monster) : Bool :=
  decide (player.x < m.x + m.width) && decide (player.x + player.width > m.x) &&
    decide (player.y < m.y + m.height) && decide (player.y + player.height > m.y)

/-- check_projectile_monster_collision (main.c lines 1004-1009). -/
def check_projectile_monster_collision (pr : Projectile) (m : Monster) : Bool :=
  decide (pr.x < m.x + m.width) && decide (pr.x + PROJECTILE_WIDTH > m.x) &&
    decide (pr.y < m.y + m.height) && decide (pr.y + PROJECTILE_HEIGHT > m.y)

/-- Inner scan of the projectile-vs-monster pass: the first active colliding
monster for a given projectile (main.c lines 1113-1123). -/
def findHitMonster (pr : Projectile) (mons : List Monster) (nmon : ℕ) : Option ℕ :=
  (List.range nmon).find? (fun j =>
    let m := mons.getD j default
    m.active && check_projectile_monster_collision pr m)

/-- Projectile-vs-monster pass (main.c lines 1109-1124): for each live
projectile in index order, the first hit deactivates both and ends that
projectile's scan. -/
def pmLoop (nmon : ℕ) : List ℕ → List Projectile → List Monster →
    List Projectile × List Monster
  | [], projs, mons => (projs, mons)
  | i :: rest, projs, mons =>
    let pr := projs.getD i default
    if pr.active then
      match findHitMonster pr mons nmon with
      | some j =>
        pmLoop nmon rest (projs.set i { pr with active := false })
          (mons.set j { mons.getD j default with active := false })
      | none => pmLoop nmon rest projs mons
    else pmLoop nmon rest projs mons

/-- Stage wrapper for the projectile-vs-monster pass. -/
def pmCollisionsStage (game : GameState) : GameState :=
  let r := pmLoop game.num_monsters (List.range game.num_projectiles)
    game.projectiles game.monsters
  { game with projectiles := r.1, monsters := r.2 }

/-- Player-vs-monster pass (main.c lines 1127-1135): any overlap with an
active monster ends the session. -/
def playerMonsterStage (game : GameState) : GameState :=
  if (List.range game.num_monsters).any (fun i =>
      let m := game.monsters.getD i default
      m.active && check_monster_collision game.player m) then
    { game with game_running := false }
  else game

/-- Score update (main.c lines 1137-1141): the height-derived score is
written only when it exceeds the current score. -/
def scoreUpdate (game : GameState) : GameState :=
  let new_score := ratTrunc (-game.camera_y / 10)
  if new_score > game.score then { game with score := new_score } else game

/-- Fall-off-the-screen terminal check (main.c lines 1143-1146): the session
ends when the player's bottom edge reaches the bottom of the viewport. -/
def finalCheck (game : GameState) : GameState :=
  if game.player.y + game.player.height ≥ game.camera_y + WINDOW_HEIGHT then
    { game with game_running := false }
  else game

/-- Physics, wrap, platform motion, cull and generation: the part of
update_game (main.c lines 1015-1064) that precedes collision resolution. -/
def prePhase (game : GameState) (delta_time : ℚ) : GameState :=
  let player := wrapPlayerX (integratePlayer game.player delta_time)
  let g1 := { game with player := player }
  let g2 := { g1 with
    platforms := mapUpTo (movePlatform g1.score delta_time) g1.num_platforms
      g1.platforms }
  let g3 := { g2 with
    platforms := mapUpTo (cullPlatform g2.camera_y) g2.num_platforms
      g2.platforms }
  generate_platforms g3 false

/-- Everything update_game does after the early-exit guard and before the
final fall-off-screen check (main.c lines 1015-1141). -/
def preFinal (game : GameState) (delta_time : ℚ) : GameState :=
  scoreUpdate (playerMonsterStage (pmCollisionsStage
    (update_monsters
      (update_projectiles (update_camera (collisionPhase (prePhase game delta_time)))
        delta_time)
      delta_time)))

/-- update_game (main.c lines 1012-1147): a no-op in the terminal state,
otherwise the full per-tick pipeline. -/
def update_game (game : GameState) (delta_time : ℚ) : GameState :=
  if game.game_running then finalCheck (preFinal game delta_time) else game

/-- The platform index (if any) the tick starting from `game` lands on: the
landing scan of update_game evaluated on the pre-collision state. -/
def landedOn (game : GameState) (delta_time : ℚ) : Option ℕ :=
  if game.game_running then
    let g1 := prePhase game delta_time
    landingIndex g1.player g1.platforms g1.num_platforms
  else none

/-- A sequence of simulation ticks with the given per-tick elapsed times. -/
def ticks (game : GameState) (dts : List ℚ) : GameState :=
  dts.foldl update_game game

/-- init_game (main.c lines 345-410): reset the player (its y is written only
after generation), clear the projectile and monster pools, reset session
state, run initial generation, then place the player and camera relative to
the starting platform. -/
def init_game (game : GameState) : GameState :=
  let player0 := { game.player with
    x := (340 : ℚ), vx := (0 : ℚ), vy := (0 : ℚ),
    width := PLAYER_WIDTH, height := PLAYER_HEIGHT, on_ground := true,
    facing_direction := (1 : ℤ), is_shooting := false, shoot_timer := (0 : ℚ) }
  let g1 := { game with
    player := player0,
    projectiles := mapUpTo (fun pr => { pr with active := false })
      MAX_PROJECTILES game.projectiles,
    num_projectiles := 0,
    monsters := mapUpTo (fun m => { m with active := false })
      MAX_MONSTERS game.monsters,
    num_monsters := 0,
    score := 0, platforms_landed := 0, last_platform_landed := -1,
    game_running := true }
  let g2 := generate_platforms g1 true
  if g2.num_platforms > 0 then
    let start := g2.platforms.getD 0 default
    { g2 with
      player := { g2.player with
        y := start.y - g2.player.height - 40,
        x := start.x + (start.width - g2.player.width) / 2 },
      camera_y := start.y - WINDOW_HEIGHT + 100 }
  else
    let starting_platform_y : ℚ := WINDOW_HEIGHT - PLATFORM_HEIGHT - 50
    { g2 with
      player := { g2.player with y := starting_platform_y - PLAYER_HEIGHT },
      camera_y := starting_platform_y - WINDOW_HEIGHT + 100 }

/-- The zeroed state SDL_calloc hands to init_game at program start: all
numeric fields 0, flags false, and the three fixed arrays filled with zeroed
slots. -/
def zeroState (rng : List ℕ) : GameState :=
  { player := default,
    platforms := List.replicate MAX_PLATFORMS default,
    num_platforms := 0,
    projectiles := List.replicate MAX_PROJECTILES default,
    num_projectiles := 0,
    monsters := List.replicate MAX_MONSTERS default,
    num_monsters := 0,
    camera_y := 0, score := 0, platforms_landed := 0,
    last_platform_landed := 0, game_running := false, rng := rng }

/-- States reachable by the program: boot (SDL_AppInit calls init_game on the
zeroed state), simulation ticks, shoot attempts, spawn attempts, and restart
(handle_input calls init_game again). -/
inductive Reachable : GameState → Prop where
  | boot (rng : List ℕ) : Reachable (init_game (zeroState rng))
  | step (g : GameState) (dt : ℚ) : Reachable g → Reachable (update_game g dt)
  | shoot (g : GameState) : Reachable g → Reachable (shoot_projectile g)
  | spawn (g : GameState) (x y : ℚ) : Reachable g → Reachable (spawn_monster g x y)
  | restart (g : GameState) : Reachable g → Reachable (init_game g)

/-! ### Stage bookkeeping lemmas -/

theorem prePhase_camera (g : GameState) (dt : ℚ) :
    (prePhase g dt).camera_y = g.camera_y := rfl

theorem prePhase_score (g : GameState) (dt : ℚ) :
    (prePhase g dt).score = g.score := rfl

theorem prePhase_running (g : GameState) (dt : ℚ) :
    (prePhase g dt).game_running = g.game_running := rfl

theorem prePhase_landed (g : GameState) (dt : ℚ) :
    (prePhase g dt).platforms_landed = g.platforms_landed := rfl

theorem prePhase_last (g : GameState) (dt : ℚ) :
    (prePhase g dt).last_platform_landed = g.last_platform_landed := rfl

theorem collisionPhase_camera (g : GameState) :
    (collisionPhase g).camera_y = g.camera_y := by
  unfold collisionPhase
  cases landingIndex g.player g.platforms g.num_platforms with
  | none => rfl
  | some i => simp only []; split <;> rfl

theorem collisionPhase_score (g : GameState) :
    (collisionPhase g).score = g.score := by
  unfold collisionPhase
  cases landingIndex g.player g.platforms g.num_platforms with
  | none => rfl
  | some i => simp only []; split <;> rfl

theorem collisionPhase_running (g : GameState) :
    (collisionPhase g).game_running = g.game_running := by
  unfold collisionPhase
  cases landingIndex g.player g.platforms g.num_platforms with
  | none => rfl
  | some i => simp only []; split <;> rfl

theorem update_camera_camera_le (g : GameState) :
    (update_camera g).camera_y ≤ g.camera_y := by
  unfold update_camera
  dsimp only
  split
  next h => exact le_of_lt h
  next => exact le_rfl

theorem update_camera_score (g : GameState) :
    (update_camera g).score = g.score := by
  unfold update_camera
  dsimp only
  split <;> rfl

theorem update_camera_running (g : GameState) :
    (update_camera g).game_running = g.game_running := by
  unfold update_camera
  dsimp only
  split <;> rfl

theorem update_camera_landed (g : GameState) :
    (update_camera g).platforms_landed = g.platforms_landed := by
  unfold update_camera
  dsimp only
  split <;> rfl

theorem update_camera_last (g : GameState) :
    (update_camera g).last_platform_landed = g.last_platform_landed := by
  unfold update_camera
  dsimp only
  split <;> rfl

theorem update_projectiles_camera (g : GameState) (dt : ℚ) :
    (update_projectiles g dt).camera_y = g.camera_y := rfl

theorem update_projectiles_score (g : GameState) (dt : ℚ) :
    (update_projectiles g dt).score = g.score := rfl

theorem update_projectiles_running (g : GameState) (dt : ℚ) :
    (update_projectiles g dt).game_running = g.game_running := rfl

theorem update_projectiles_landed (g : GameState) (dt : ℚ) :
    (update_projectiles g dt).platforms_landed = g.platforms_landed := rfl

theorem update_projectiles_last (g : GameState) (dt : ℚ) :
    (update_projectiles g dt).last_platform_landed = g.last_platform_landed := rfl

theorem spawn_monster_camera (g : GameState) (x y : ℚ) :
    (spawn_monster g x y).camera_y = g.camera_y := by
  unfold spawn_monster
  split
  next => rfl
  next => split <;> rfl

theorem spawn_monster_score (g : GameState) (x y : ℚ) :
    (spawn_monster g x y).score = g.score := by
  unfold spawn_monster
  split
  next => rfl
  next => split <;> rfl

theorem spawn_monster_running (g : GameState) (x y : ℚ) :
    (spawn_monster g x y).game_running = g.game_running := by
  unfold spawn_monster
  split
  next => rfl
  next => split <;> rfl

theorem spawn_monster_landed (g : GameState) (x y : ℚ) :
    (spawn_monster g x y).platforms_landed = g.platforms_landed := by
  unfold spawn_monster
  split
  next => rfl
  next => split <;> rfl

theorem spawn_monster_last (g : GameState) (x y : ℚ) :
    (spawn_monster g x y).last_platform_landed = g.last_platform_landed := by
  unfold spawn_monster
  split
  next => rfl
  next => split <;> rfl

theorem update_monsters_camera (g : GameState) (dt : ℚ) :
    (update_monsters g dt).camera_y = g.camera_y := by
  unfold update_monsters
  dsimp only
  repeat' split
  all_goals first
    | rw [spawn_monster_camera]
    | rfl

theorem update_monsters_score (g : GameState) (dt : ℚ) :
    (update_monsters g dt).score = g.score := by
  unfold update_monsters
  dsimp only
  repeat' split
  all_goals first
    | rw [spawn_monster_score]
    | rfl

theorem update_monsters_running (g : GameState) (dt : ℚ) :
    (update_monsters g dt).game_running = g.game_running := by
  unfold update_monsters
  dsimp only
  repeat' split
  all_goals first
    | rw [spawn_monster_running]
    | rfl

theorem update_monsters_landed (g : GameState) (dt : ℚ) :
    (update_monsters g dt).platforms_landed = g.platforms_landed := by
  unfold update_monsters
  dsimp only
  repeat' split
  all_goals first
    | rw [spawn_monster_landed]
    | rfl

theorem update_monsters_last (g : GameState) (dt : ℚ) :
    (update_monsters g dt).last_platform_landed = g.last_platform_landed := by
  unfold update_monsters
  dsimp only
  repeat' split
  all_goals first
    | rw [spawn_monster_last]
    | rfl

theorem pmCollisionsStage_camera (g : GameState) :
    (pmCollisionsStage g).camera_y = g.camera_y := rfl

theorem pmCollisionsStage_score (g : GameState) :
    (pmCollisionsStage g).score = g.score := rfl

theorem pmCollisionsStage_running (g : GameState) :
    (pmCollisionsStage g).game_running = g.game_running := rfl

theorem pmCollisionsStage_landed (g : GameState) :
    (pmCollisionsStage g).platforms_landed = g.platforms_landed := rfl

theorem pmCollisionsStage_last (g : GameState) :
    (pmCollisionsStage g).last_platform_landed = g.last_platform_landed := rfl

theorem playerMonsterStage_camera (g : GameState) :
    (playerMonsterStage g).camera_y = g.camera_y := by
  unfold playerMonsterStage
  split <;> rfl

theorem playerMonsterStage_score (g : GameState) :
    (playerMonsterStage g).score = g.score := by
  unfold playerMonsterStage
  split <;> rfl

theorem playerMonsterStage_landed (g : GameState) :
    (playerMonsterStage g).platforms_landed = g.platforms_landed := by
  unfold playerMonsterStage
  split <;> rfl

theorem playerMonsterStage_last (g : GameState) :
    (playerMonsterStage g).last_platform_landed = g.last_platform_landed := by
  unfold playerMonsterStage
  split <;> rfl

theorem scoreUpdate_camera (g : GameState) :
    (scoreUpdate g).camera_y = g.camera_y := by
  unfold scoreUpdate
  dsimp only
  split <;> rfl

theorem scoreUpdate_score_le (g : GameState) : g.score ≤ (scoreUpdate g).score := by
  unfold scoreUpdate
  dsimp only
  split
  next h => exact le_of_lt h
  next => exact le_rfl

theorem scoreUpdate_landed (g : GameState) :
    (scoreUpdate g).platforms_landed = g.platforms_landed := by
  unfold scoreUpdate
  dsimp only
  split <;> rfl

theorem scoreUpdate_last (g : GameState) :
    (scoreUpdate g).last_platform_landed = g.last_platform_landed := by
  unfold scoreUpdate
  dsimp only
  split <;> rfl

theorem finalCheck_camera (g : GameState) :
    (finalCheck g).camera_y = g.camera_y := by
  unfold finalCheck
  split <;> rfl

theorem finalCheck_score (g : GameState) : (finalCheck g).score = g.score := by
  unfold finalCheck
  split <;> rfl

theorem finalCheck_landed (g : GameState) :
    (finalCheck g).platforms_landed = g.platforms_landed := by
  unfold finalCheck
  split <;> rfl

theorem finalCheck_last (g : GameState) :
    (finalCheck g).last_platform_landed = g.last_platform_landed := by
  unfold finalCheck
  split <;> rfl

/-- C1: for a tick executed while the session is running the camera offset
never increases; update_camera itself adopts the candidate offset only when
it is numerically smaller, so it never moves the camera back down. -/
theorem camera_never_moves_down :
    (∀ g : GameState, (update_camera g).camera_y ≤ g.camera_y) ∧
    (∀ (g : GameState) (dt : ℚ), g.game_running = true →
      (update_game g dt).camera_y ≤ g.camera_y) := by
  constructor
  · exact update_camera_camera_le
  · intro g dt hrun
    unfold update_game
    rw [hrun]
    simp only [if_true]
    unfold preFinal
    rw [finalCheck_camera, scoreUpdate_camera, playerMonsterStage_camera,
      pmCollisionsStage_camera, update_monsters_camera, update_projectiles_camera]
    exact le_trans (update_camera_camera_le _)
      (by rw [collisionPhase_camera, prePhase_camera])

/-- C1 witness: a concrete running tick on which the camera does not move
down. -/
theorem camera_never_moves_down_witness :
    (update_game
      { player :=
          { x := 10, y := 458, vx := 0, vy := 2, width := 40,
            height := 40, on_ground := false, facing_direction := 1,
            is_shooting := false, shoot_timer := 0 },
        platforms := [], num_platforms := 0, projectiles := [],
        num_projectiles := 0, monsters := [], num_monsters := 0,
        camera_y := -100, score := 0, platforms_landed := 0,
        last_platform_landed := -1, game_running := true, rng := [0, 0] } 1).camera_y ≤
      (-100 : ℚ) :=
  camera_never_moves_down.2 _ 1 rfl

/-- C2: the score after a tick is at least the score before it: the
height-derived score is written only when it exceeds the current one. -/
theorem score_monotone (g : GameState) (dt : ℚ) :
    g.score ≤ (update_game g dt).score := by
  unfold update_game
  split
  next =>
    unfold preFinal
    rw [finalCheck_score]
    refine le_trans ?_ (scoreUpdate_score_le _)
    rw [playerMonsterStage_score, pmCollisionsStage_score, update_monsters_score,
      update_projectiles_score, update_camera_score, collisionPhase_score,
      prePhase_score]
  next => exact le_rfl

/-! ### C3: horizontal wrap -/

/-- Concrete player fully past the left world boundary. -/
def wrapDemoPlayer : Player :=
  { x := -100, y := 0, vx := -3, vy := 0, width := 40, height := 40,
    on_ground := false, facing_direction := -1, is_shooting := false,
    shoot_timer := 0 }

/-- C3 counterexample: a player whose right edge has crossed the left world
boundary does NOT reappear with its right edge at the right world boundary;
the code places its left edge there instead. -/
theorem wrap_right_edge_counterexample :
    wrapDemoPlayer.x + wrapDemoPlayer.width < 0 ∧
    (wrapPlayerX wrapDemoPlayer).x + (wrapPlayerX wrapDemoPlayer).width ≠
      WINDOW_WIDTH := by
  constructor
  · with_unfolding_all decide
  · with_unfolding_all decide

/-- C3 amended: in the horizontal wrap applied by update_game, an actor
fully past the left boundary reappears with its LEFT edge at the right world
boundary (x = WINDOW_WIDTH), and an actor whose left edge has crossed the
right boundary reappears with its RIGHT edge at the left world boundary
(x + width = 0). -/
theorem wrap_amended :
    (∀ p : Player, p.x + p.width < 0 → (wrapPlayerX p).x = WINDOW_WIDTH) ∧
    (∀ p : Player, ¬ p.x + p.width < 0 → p.x > WINDOW_WIDTH →
      (wrapPlayerX p).x + (wrapPlayerX p).width = 0) := by
  constructor
  · intro p h
    unfold wrapPlayerX
    rw [if_pos h]
  · intro p h1 h2
    unfold wrapPlayerX
    rw [if_neg h1, if_pos h2]
    show -p.width + p.width = 0
    ring

/-- C3 amended witness: both wrap branches evaluated on concrete players. -/
theorem wrap_amended_witness :
    (wrapDemoPlayer.x + wrapDemoPlayer.width < 0 ∧
      (wrapPlayerX wrapDemoPlayer).x = WINDOW_WIDTH) ∧
    (¬ { wrapDemoPlayer with x := 725 : Player }.x +
        { wrapDemoPlayer with x := 725 : Player }.width < 0 ∧
      { wrapDemoPlayer with x := 725 : Player }.x > WINDOW_WIDTH ∧
      (wrapPlayerX { wrapDemoPlayer with x := 725 }).x +
        (wrapPlayerX { wrapDemoPlayer with x := 725 }).width = 0) := by
  refine ⟨⟨by with_unfolding_all decide, wrap_amended.1 wrapDemoPlayer (by with_unfolding_all decide)⟩,
    ⟨by with_unfolding_all decide, by with_unfolding_all decide,
      wrap_amended.2 { wrapDemoPlayer with x := 725 } (by with_unfolding_all decide)
        (by with_unfolding_all decide)⟩⟩

/-! ### C4: fall-off-screen terminal condition -/

/-- Concrete running state: after one tick the player's bottom edge has just
crossed the viewport bottom while its top edge is still inside the
viewport. -/
def touchState : GameState :=
  { player :=
      { x := 0, y := 670, vx := 0, vy := 10, width := 40, height := 40,
        on_ground := false, facing_direction := 1, is_shooting := false,
        shoot_timer := 0 },
    platforms :=
      [{ x := 500, y := -2000, width := 65, height := 15,
         type := PlatformType.NORMAL, active := true, move_direction := 0,
         move_speed := 0 }],
    num_platforms := 1, projectiles := [], num_projectiles := 0,
    monsters := [], num_monsters := 0, camera_y := 0, score := 0,
    platforms_landed := 0, last_platform_landed := -1, game_running := true,
    rng := [] }

/-- C4 counterexample: the terminal condition fires on a tick after which
the actor's top edge is NOT strictly below the viewport bottom (the box has
not moved entirely past it; only the bottom edge touched), refuting the
claimed "exactly when entirely past" condition. -/
theorem terminal_touch_counterexample :
    (update_game touchState 1).game_running = false ∧
    ¬ (update_game touchState 1).player.y >
        (update_game touchState 1).camera_y + WINDOW_HEIGHT := by
  constructor
  · with_unfolding_all decide
  · with_unfolding_all decide

/-- C4 amended: a tick executed in the running state ends the session
exactly when the monster-collision stage already ended it or the post-tick
player's BOTTOM edge has reached or passed the viewport bottom
(player.y + player.height ≥ camera_y + WINDOW_HEIGHT, touching included). -/
theorem terminal_condition_amended (g : GameState) (dt : ℚ)
    (hrun : g.game_running = true) :
    ((update_game g dt).game_running = false ↔
      ((preFinal g dt).game_running = false ∨
        (preFinal g dt).player.y + (preFinal g dt).player.height ≥
          (preFinal g dt).camera_y + WINDOW_HEIGHT)) := by
  unfold update_game
  rw [hrun]
  simp only [if_true]
  unfold finalCheck
  split
  next h => simp [h]
  next h => simp [h]

/-- C4 amended witness: the amended equivalence evaluated on the concrete
touching state. -/
theorem terminal_condition_amended_witness :
    touchState.game_running = true ∧
    ((update_game touchState 1).game_running = false ↔
      ((preFinal touchState 1).game_running = false ∨
        (preFinal touchState 1).player.y + (preFinal touchState 1).player.height ≥
          (preFinal touchState 1).camera_y + WINDOW_HEIGHT)) :=
  ⟨rfl, terminal_condition_amended touchState 1 rfl⟩

/-! ### C5: breakable platforms break exactly once -/

theorem default_platform_inactive : (default : Platform).active = false := rfl

/-- C5: an inactive platform produces no landing response (so a broken
BREAKABLE platform can never re-trigger the bounce, snap or counters), and
when the collision pass lands on a BREAKABLE platform that platform is
inactive in the resulting state of the same tick. -/
theorem breakable_deactivates_once :
    (∀ (player : Player) (platform : Platform), platform.active = false →
      check_platform_collision player platform = false) ∧
    (∀ (g : GameState) (i : ℕ),
      landingIndex g.player g.platforms g.num_platforms = some i →
      (g.platforms.getD i default).type = PlatformType.BREAKABLE →
      ((collisionPhase g).platforms.getD i default).active = false) := by
  constructor
  · intro player platform h
    unfold check_platform_collision
    rw [h]
    rfl
  · intro g i hidx htype
    unfold collisionPhase
    rw [hidx]
    dsimp only
    rw [if_pos htype]
    by_cases hlen : i < g.platforms.length
    · have hset : (g.platforms.set i
          { g.platforms.getD i default with active := false }).getD i default =
          { g.platforms.getD i default with active := false } := by
        simp [List.getD_eq_getElem?_getD, List.getElem?_set_self hlen]
      split
      next => exact congrArg Platform.active hset
      next => exact congrArg Platform.active hset
    · have hset : (g.platforms.set i
          { g.platforms.getD i default with active := false }).getD i default =
          default := by
        rw [List.set_eq_of_length_le (Nat.le_of_not_lt hlen)]
        simp [List.getD_eq_getElem?_getD, List.getElem?_eq_none (Nat.le_of_not_lt hlen)]
      split
      next => rw [hset]; rfl
      next => rw [hset]; rfl

/-- Concrete state landing on a BREAKABLE platform at index 0. -/
def breakState : GameState :=
  { player :=
      { x := 10, y := 490, vx := 0, vy := 3, width := 40, height := 40,
        on_ground := false, facing_direction := 1, is_shooting := false,
        shoot_timer := 0 },
    platforms :=
      [{ x := 0, y := 500, width := 65, height := 15,
         type := PlatformType.BREAKABLE, active := true, move_direction := 0,
         move_speed := 0 }],
    num_platforms := 1, projectiles := [], num_projectiles := 0,
    monsters := [], num_monsters := 0, camera_y := 0, score := 0,
    platforms_landed := 0, last_platform_landed := -1, game_running := true,
    rng := [] }

/-- C5 witness: an inactive platform yields no collision, and the concrete
landing on the BREAKABLE platform of breakState leaves it inactive. -/
theorem breakable_deactivates_once_witness :
    ((default : Platform).active = false ∧
      check_platform_collision breakState.player (default : Platform) = false) ∧
    (landingIndex breakState.player breakState.platforms breakState.num_platforms =
        some 0 ∧
      (breakState.platforms.getD 0 default).type = PlatformType.BREAKABLE ∧
      ((collisionPhase breakState).platforms.getD 0 default).active = false) := by
  refine ⟨⟨rfl, breakable_deactivates_once.1 breakState.player default rfl⟩,
    ⟨?h1, ?h2, breakable_deactivates_once.2 breakState 0 ?h3 ?h4⟩⟩
  case h1 => with_unfolding_all decide
  case h2 => with_unfolding_all decide
  case h3 => with_unfolding_all decide
  case h4 => with_unfolding_all decide

/-! ### C6: at most one count per contact episode -/

theorem collisionPhase_landing (g : GameState) (i : ℕ)
    (h : landingIndex g.player g.platforms g.num_platforms = some i) :
    (collisionPhase g).last_platform_landed = (i : ℤ) ∧
    (collisionPhase g).platforms_landed =
      g.platforms_landed +
        (if g.last_platform_landed = (i : ℤ) then 0 else 1) := by
  unfold collisionPhase
  rw [h]
  dsimp only
  by_cases hc : (i : ℤ) ≠ g.last_platform_landed
  · rw [if_pos hc]
    refine ⟨rfl, ?_⟩
    show g.platforms_landed + 1 =
      g.platforms_landed + (if g.last_platform_landed = (i : ℤ) then 0 else 1)
    rw [if_neg (fun hh => hc hh.symm)]
  · rw [if_neg hc]
    have heq : (i : ℤ) = g.last_platform_landed := not_ne_iff.mp hc
    refine ⟨heq.symm, ?_⟩
    show g.platforms_landed =
      g.platforms_landed + (if g.last_platform_landed = (i : ℤ) then 0 else 1)
    rw [if_pos heq.symm]
    exact (add_zero _).symm

theorem update_game_landing (g : GameState) (dt : ℚ) (i : ℕ)
    (h : landedOn g dt = some i) :
    (update_game g dt).last_platform_landed = (i : ℤ) ∧
    (update_game g dt).platforms_landed =
      g.platforms_landed +
        (if g.last_platform_landed = (i : ℤ) then 0 else 1) := by
  unfold landedOn at h
  by_cases hrun : g.game_running = true
  · rw [if_pos hrun] at h
    unfold update_game
    rw [hrun]
    simp only [if_true]
    unfold preFinal
    constructor
    · rw [finalCheck_last, scoreUpdate_last, playerMonsterStage_last,
        pmCollisionsStage_last, update_monsters_last, update_projectiles_last,
        update_camera_last]
      exact (collisionPhase_landing _ i h).1
    · rw [finalCheck_landed, scoreUpdate_landed, playerMonsterStage_landed,
        pmCollisionsStage_landed, update_monsters_landed,
        update_projectiles_landed, update_camera_landed]
      rw [(collisionPhase_landing _ i h).2, prePhase_landed, prePhase_last]
  · rw [if_neg hrun] at h
    exact absurd h (by simp)

theorem ticks_landing_aux (i : ℕ) :
    ∀ (dts : List ℚ) (g : GameState),
      (∀ k, k < dts.length →
        landedOn (ticks g (dts.take k)) (dts.getD k 0) = some i) →
      (ticks g dts).platforms_landed ≤
        g.platforms_landed +
          (if g.last_platform_landed = (i : ℤ) then 0 else 1) := by
  intro dts
  induction dts with
  | nil =>
    intro g _
    show g.platforms_landed ≤ _
    split <;> omega
  | cons dt rest ih =>
    intro g h
    have h0 : landedOn g dt = some i := h 0 (Nat.succ_pos _)
    have hstep := update_game_landing g dt i h0
    have hrest : ∀ k, k < rest.length →
        landedOn (ticks (update_game g dt) (rest.take k)) (rest.getD k 0) =
          some i := by
      intro k hk
      have := h (k + 1) (Nat.succ_lt_succ hk)
      simpa [ticks] using this
    have := ih (update_game g dt) hrest
    rw [hstep.1, if_pos rfl, hstep.2] at this
    show (ticks (update_game g dt) rest).platforms_landed ≤ _
    split at this <;> split <;> omega

/-- C6: across any run of consecutive ticks each of which lands on the same
platform index i (with no intervening landing on a different platform), the
landed-platform counter increases by at most one: a landing increments it
only when i differs from last_platform_landed, which the landing then
updates. -/
theorem same_platform_counted_once (g : GameState) (dts : List ℚ) (i : ℕ)
    (h : ∀ k, k < dts.length →
      landedOn (ticks g (dts.take k)) (dts.getD k 0) = some i) :
    (ticks g dts).platforms_landed ≤ g.platforms_landed + 1 := by
  refine le_trans (ticks_landing_aux i dts g h) ?_
  split <;> omega

/-- Concrete state: the player lands on the NORMAL platform at index 0. -/
def landState : GameState :=
  { player :=
      { x := 10, y := 458, vx := 0, vy := 2, width := 40, height := 40,
        on_ground := false, facing_direction := 1, is_shooting := false,
        shoot_timer := 0 },
    platforms :=
      [{ x := 0, y := 500, width := 65, height := 15,
         type := PlatformType.NORMAL, active := true, move_direction := 0,
         move_speed := 0 },
       { x := 500, y := -2000, width := 65, height := 15,
         type := PlatformType.NORMAL, active := true, move_direction := 0,
         move_speed := 0 }],
    num_platforms := 2, projectiles := [], num_projectiles := 0,
    monsters := [], num_monsters := 0, camera_y := 0, score := 0,
    platforms_landed := 0, last_platform_landed := -1, game_running := true,
    rng := [] }

/-- C6 witness: a concrete one-tick run landing on platform 0. -/
theorem same_platform_counted_once_witness :
    (∀ k, k < ([1] : List ℚ).length →
      landedOn (ticks landState (([1] : List ℚ).take k))
        (([1] : List ℚ).getD k 0) = some 0) ∧
    (ticks landState [1]).platforms_landed ≤ landState.platforms_landed + 1 := by
  have hk : ∀ k, k < ([1] : List ℚ).length →
      landedOn (ticks landState (([1] : List ℚ).take k))
        (([1] : List ℚ).getD k 0) = some 0 := by
    intro k hk
    have hk0 : k = 0 := by
      simpa using Nat.lt_one_iff.mp (by simpa using hk)
    subst hk0
    show landedOn (ticks landState []) 1 = some 0
    with_unfolding_all decide
  exact ⟨hk, same_platform_counted_once landState [1] 0 hk⟩

/-! ### C8: shoot cooldown -/

/-- C8: while the shoot cooldown is active a shoot trigger is a complete
no-op; once it has expired (is_shooting cleared by update_projectiles when
the timer runs out) and the pool is below capacity, a shoot trigger creates
exactly one new active projectile (every other slot unchanged) and restarts
the cooldown. -/
theorem shoot_cooldown_behaviour :
    (∀ g : GameState, g.player.is_shooting = true → shoot_projectile g = g) ∧
    (∀ (g : GameState) (dt : ℚ), g.player.is_shooting = true →
      g.player.shoot_timer - dt ≤ 0 →
      (update_projectiles g dt).player.is_shooting = false) ∧
    (∀ g : GameState, g.player.is_shooting = false →
      g.num_projectiles < MAX_PROJECTILES →
      (shoot_projectile g).num_projectiles = g.num_projectiles + 1 ∧
      (shoot_projectile g).player.is_shooting = true ∧
      (shoot_projectile g).player.shoot_timer = 32 ∧
      (g.num_projectiles < g.projectiles.length →
        ((shoot_projectile g).projectiles.getD g.num_projectiles default).active =
          true) ∧
      (∀ j, j ≠ g.num_projectiles →
        (shoot_projectile g).projectiles.getD j default =
          g.projectiles.getD j default)) := by
  refine ⟨?_, ?_, ?_⟩
  · intro g h
    unfold shoot_projectile
    rw [if_pos]
    rw [h]
    rfl
  · intro g dt h ht
    unfold update_projectiles
    dsimp only
    rw [h]
    simp only [if_true]
    rw [if_pos ht]
  · intro g h hcap
    unfold shoot_projectile
    rw [if_neg (by simp [h, Nat.not_le.mpr hcap])]
    refine ⟨rfl, rfl, rfl, ?_, ?_⟩
    · intro hlen
      show ((g.projectiles.set g.num_projectiles _).getD g.num_projectiles
        default).active = true
      rw [List.getD_eq_getElem?_getD, List.getElem?_set_self hlen]
      rfl
    · intro j hj
      show (g.projectiles.set g.num_projectiles _).getD j default =
        g.projectiles.getD j default
      rw [List.getD_eq_getElem?_getD,
        List.getElem?_set_ne (fun hh => hj hh.symm),
        ← List.getD_eq_getElem?_getD]

/-- Concrete state eligible to shoot (cooldown inactive, pool not full). -/
def shootReadyState : GameState :=
  { player :=
      { x := 100, y := 300, vx := 0, vy := 0, width := 40, height := 40,
        on_ground := false, facing_direction := 1, is_shooting := false,
        shoot_timer := 0 },
    platforms := [], num_platforms := 0,
    projectiles := [default, default], num_projectiles := 1,
    monsters := [], num_monsters := 0, camera_y := 0, score := 0,
    platforms_landed := 0, last_platform_landed := -1, game_running := true,
    rng := [] }

/-- C8 witness: a cooldown-blocked trigger changes nothing on a concrete
state; the expiry rule fires; and an eligible concrete trigger creates the
one new projectile. -/
theorem shoot_cooldown_behaviour_witness :
    (shoot_projectile { shootReadyState with
        player := { shootReadyState.player with is_shooting := true } } =
      { shootReadyState with
        player := { shootReadyState.player with is_shooting := true } }) ∧
    ((update_projectiles { shootReadyState with
        player := { shootReadyState.player with
          is_shooting := true, shoot_timer := 2 } } 3).player.is_shooting =
      false) ∧
    ((shoot_projectile shootReadyState).num_projectiles = 2 ∧
      (shoot_projectile shootReadyState).player.is_shooting = true ∧
      ((shoot_projectile shootReadyState).projectiles.getD 1 default).active =
        true) := by
  refine ⟨shoot_cooldown_behaviour.1 _ rfl, shoot_cooldown_behaviour.2.1 _ 3 rfl
      (by with_unfolding_all decide), ?_⟩
  have h := shoot_cooldown_behaviour.2.2 shootReadyState rfl
    (by with_unfolding_all decide)
  exact ⟨h.1, h.2.1, h.2.2.2.1 (by with_unfolding_all decide)⟩

/-! ### C9: pool compaction and dense prefixes -/

theorem compact_count_le {α : Type} (keep : α → Bool) (l : List α) (n : ℕ) :
    (compact keep l n).2 ≤ n := by
  unfold compact
  dsimp only
  refine le_trans (List.length_filter_le _ _) ?_
  rw [List.length_take]
  exact min_le_left _ _

theorem compact_getD_keep {α : Type} (keep : α → Bool) (l : List α) (n i : ℕ)
    (d : α) (h : i < (compact keep l n).2) :
    keep ((compact keep l n).1.getD i d) = true := by
  unfold compact at h ⊢
  dsimp only at h ⊢
  rw [List.getD_eq_getElem?_getD, List.getElem?_append_left h,
    List.getElem?_eq_getElem h]
  exact (List.mem_filter.mp (List.getElem_mem h)).2

theorem compact_take_eq {α : Type} (keep : α → Bool) (l : List α) (n : ℕ) :
    (compact keep l n).1.take (compact keep l n).2 = (l.take n).filter keep := by
  unfold compact
  dsimp only
  exact List.take_left _ _

theorem compact_filter_sublist {α : Type} (keep : α → Bool) (l : List α) (n : ℕ) :
    List.Sublist ((l.take n).filter keep) (l.take n) :=
  List.filter_sublist _

theorem compact_length {α : Type} (keep : α → Bool) (l : List α) (n : ℕ) :
    (compact keep l n).1.length = l.length := by
  unfold compact
  dsimp only
  rw [List.length_append, List.length_drop]
  have h : ((l.take n).filter keep).length ≤ l.length := by
    refine le_trans (List.length_filter_le _ _) ?_
    rw [List.length_take]
    exact min_le_right _ _
  omega

theorem mapUpTo_length {α : Type} (f : α → α) (n : ℕ) (l : List α) :
    (mapUpTo f n l).length = l.length := by
  unfold mapUpTo
  rw [List.length_append, List.length_map, List.length_take, List.length_drop]
  omega

theorem update_projectiles_dense (g : GameState) (dt : ℚ) :
    ∀ i, i < (update_projectiles g dt).num_projectiles →
      ((update_projectiles g dt).projectiles.getD i default).active = true := by
  intro i h
  exact compact_getD_keep _ _ _ _ _ h

theorem spawn_monster_dense (g : GameState) (x y : ℚ)
    (hlen : MAX_MONSTERS ≤ g.monsters.length)
    (hd : ∀ i, i < g.num_monsters →
      ((g.monsters.getD i default).active = true)) :
    ∀ i, i < (spawn_monster g x y).num_monsters →
      ((spawn_monster g x y).monsters.getD i default).active = true := by
  unfold spawn_monster
  split
  next => exact hd
  next hcap =>
    split
    next => exact hd
    next =>
      intro i h
      have h2 : i < g.num_monsters + 1 := h
      by_cases hi : i = g.num_monsters
      · subst hi
        rw [List.getD_eq_getElem?_getD,
          List.getElem?_set_self (lt_of_lt_of_le (Nat.lt_of_not_le hcap) hlen)]
        rfl
      · rw [List.getD_eq_getElem?_getD,
          List.getElem?_set_ne (fun hh => hi hh.symm),
          ← List.getD_eq_getElem?_getD]
        exact hd i (by omega)

theorem update_monsters_dense (g : GameState) (dt : ℚ)
    (hlen : g.monsters.length = MAX_MONSTERS) :
    ∀ i, i < (update_monsters g dt).num_monsters →
      ((update_monsters g dt).monsters.getD i default).active = true := by
  unfold update_monsters
  dsimp only
  have hd : ∀ i, i < (compact (fun m => m.active)
      (mapUpTo (monsterStep g.camera_y dt) g.num_monsters g.monsters)
      g.num_monsters).2 →
      (((compact (fun m => m.active)
        (mapUpTo (monsterStep g.camera_y dt) g.num_monsters g.monsters)
        g.num_monsters).1.getD i default).active = true) :=
    fun i h => compact_getD_keep _ _ _ _ _ h
  have hclen : MAX_MONSTERS ≤ (compact (fun m => m.active)
      (mapUpTo (monsterStep g.camera_y dt) g.num_monsters g.monsters)
      g.num_monsters).1.length := by
    rw [compact_length, mapUpTo_length, hlen]
  repeat' split
  all_goals
    first
      | exact hd
      | ((refine spawn_monster_dense _ _ _ ?_ ?_) <;>
          first
            | exact hclen
            | exact hd)

/-- Concrete running state in which this tick culls platform 1 in place and
triggers no slot reuse, leaving a hole below num_platforms. -/
def cullState : GameState :=
  { player :=
      { x := 0, y := 400, vx := 0, vy := -100, width := 40, height := 40,
        on_ground := false, facing_direction := 1, is_shooting := false,
        shoot_timer := 0 },
    platforms :=
      [{ x := 500, y := -1000, width := 65, height := 15,
         type := PlatformType.NORMAL, active := true, move_direction := 0,
         move_speed := 0 },
       { x := 0, y := 1000, width := 65, height := 15,
         type := PlatformType.NORMAL, active := true, move_direction := 0,
         move_speed := 0 }],
    num_platforms := 2, projectiles := [], num_projectiles := 0,
    monsters := [], num_monsters := 0, camera_y := 0, score := 0,
    platforms_landed := 0, last_platform_landed := -1, game_running := true,
    rng := [] }

/-- C9 counterexample: after a full tick the PLATFORM pool is not a dense
prefix of live entries: slot 1 sits below the live count yet holds an
inactive platform (the cull deactivates in place and nothing compacts the
platform array). -/
theorem platform_pool_not_dense_counterexample :
    1 < (update_game cullState 1).num_platforms ∧
    ((update_game cullState 1).platforms.getD 1 default).active = false := by
  constructor
  · with_unfolding_all decide
  · with_unfolding_all decide

/-- C9 amended: the PROJECTILE and MONSTER pools are kept dense by the
per-tick compaction, which filters the live prefix (preserving relative
order, as a sublist) and shrinks the live count; after update_projectiles
and update_monsters every slot below the live count is active. The platform
pool is exempt: it is deactivated in place and only reused by generation. -/
theorem pools_dense_amended :
    (∀ (l : List Projectile) (n : ℕ),
      (compact (fun pr => pr.active) l n).2 ≤ n ∧
      (compact (fun pr => pr.active) l n).1.take
          (compact (fun pr => pr.active) l n).2 =
        (l.take n).filter (fun pr => pr.active) ∧
      List.Sublist ((l.take n).filter (fun pr => pr.active)) (l.take n)) ∧
    (∀ (l : List Monster) (n : ℕ),
      (compact (fun m => m.active) l n).2 ≤ n ∧
      (compact (fun m => m.active) l n).1.take
          (compact (fun m => m.active) l n).2 =
        (l.take n).filter (fun m => m.active) ∧
      List.Sublist ((l.take n).filter (fun m => m.active)) (l.take n)) ∧
    (∀ (g : GameState) (dt : ℚ) (i : ℕ),
      i < (update_projectiles g dt).num_projectiles →
      ((update_projectiles g dt).projectiles.getD i default).active = true) ∧
    (∀ (g : GameState) (dt : ℚ), g.monsters.length = MAX_MONSTERS →
      ∀ i, i < (update_monsters g dt).num_monsters →
      ((update_monsters g dt).monsters.getD i default).active = true) :=
  ⟨fun l n => ⟨compact_count_le _ l n, compact_take_eq _ l n,
      compact_filter_sublist _ l n⟩,
    fun l n => ⟨compact_count_le _ l n, compact_take_eq _ l n,
      compact_filter_sublist _ l n⟩,
    fun g dt i h => update_projectiles_dense g dt i h,
    fun g dt hlen i h => update_monsters_dense g dt hlen i h⟩

/-- Concrete monster pool of full array size with one live monster. -/
def monsterPoolState : GameState :=
  { player :=
      { x := 300, y := 300, vx := 0, vy := 0, width := 40, height := 40,
        on_ground := false, facing_direction := 1, is_shooting := false,
        shoot_timer := 0 },
    platforms := [], num_platforms := 0,
    projectiles := [{ x := 0, y := 0, vy := -7, active := true },
      { x := 0, y := 5000, vy := -7, active := false }],
    num_projectiles := 2,
    monsters :=
      { x := 10, y := 0, vx := 3/100, width := 70, height := 90,
        type := MonsterType.BASIC, active := true,
        move_direction := 1 } :: List.replicate 19 default,
    num_monsters := 1,
    camera_y := 0, score := 0, platforms_landed := 0,
    last_platform_landed := -1, game_running := true, rng := [] }

/-- C9 amended witness: the dense-prefix facts evaluated on concrete pools. -/
theorem pools_dense_amended_witness :
    (0 < (update_projectiles monsterPoolState 1).num_projectiles ∧
      ((update_projectiles monsterPoolState 1).projectiles.getD 0
        default).active = true) ∧
    (monsterPoolState.monsters.length = MAX_MONSTERS ∧
      0 < (update_monsters monsterPoolState 1).num_monsters ∧
      ((update_monsters monsterPoolState 1).monsters.getD 0
        default).active = true) := by
  refine ⟨⟨?hp, pools_dense_amended.2.2.1 monsterPoolState 1 0 ?hp⟩,
    ⟨?hl, ?hm, pools_dense_amended.2.2.2 monsterPoolState 1 ?hl 0 ?hm⟩⟩
  case hp => with_unfolding_all decide
  case hl => with_unfolding_all decide
  case hm => with_unfolding_all decide

/-! ### C10: generated platform kinematic fields -/

/-- Kinematic well-formedness of a generated platform: MOVING platforms have
speed clamped into [1/2, 1]; every other type has zero speed and zero
direction. -/
def platOK (p : Platform) : Bool :=
  if p.type = PlatformType.MOVING then
    decide (1/2 ≤ p.move_speed) && decide (p.move_speed ≤ 1)
  else
    decide (p.move_speed = 0) && decide (p.move_direction = 0)

theorem clamp_bounds (q : ℚ) :
    1/2 ≤ (if q < 1/2 then (1/2 : ℚ) else if q > 1 then 1 else q) ∧
    (if q < 1/2 then (1/2 : ℚ) else if q > 1 then 1 else q) ≤ 1 := by
  split
  next => norm_num
  next h =>
    split
    next => norm_num
    next h2 => exact ⟨le_of_not_lt h, le_of_not_lt h2⟩

theorem assignTypeKinematics_platOK (score : ℤ) (rng : List ℕ) (p : Platform) :
    platOK (assignTypeKinematics score rng p).1 = true := by
  unfold assignTypeKinematics
  dsimp only
  split
  next => simp [platOK]
  next =>
    split
    next =>
      simp only [platOK, eq_self_iff_true, if_true]
      rw [Bool.and_eq_true, decide_eq_true_eq, decide_eq_true_eq]
      exact clamp_bounds _
    next =>
      split
      next => simp [platOK]
      next => simp [platOK]

theorem freshPlatform_platOK (score : ℤ) (cy : ℚ) (rng : List ℕ) :
    platOK (freshPlatform score cy rng).1 = true :=
  assignTypeKinematics_platOK _ _ _

theorem platOK_spec (p : Platform) (h : platOK p = true) :
    (p.type = PlatformType.MOVING →
      1/2 ≤ p.move_speed ∧ p.move_speed ≤ 1) ∧
    (p.type ≠ PlatformType.MOVING →
      p.move_speed = 0 ∧ p.move_direction = 0) := by
  unfold platOK at h
  constructor
  · intro ht
    rw [if_pos ht, Bool.and_eq_true, decide_eq_true_eq, decide_eq_true_eq] at h
    exact h
  · intro ht
    rw [if_neg ht, Bool.and_eq_true, decide_eq_true_eq, decide_eq_true_eq] at h
    exact h

theorem genInitialLoop_mem : ∀ (fuel : ℕ) (cy : ℚ) (score : ℤ)
    (plats : List Platform) (num : ℕ) (rng : List ℕ) (p : Platform),
    p ∈ (genInitialLoop fuel cy score plats num rng).1 →
    p ∈ plats ∨ platOK p = true := by
  intro fuel
  induction fuel with
  | zero => exact fun _ _ _ _ _ _ h => Or.inl h
  | succ n ih =>
    intro cy score plats num rng p h
    unfold genInitialLoop at h
    split at h
    next =>
      rcases ih _ _ _ _ _ _ h with h1 | h2
      · rcases List.mem_or_eq_of_mem_set h1 with h3 | h4
        · exact Or.inl h3
        · exact Or.inr (h4 ▸ freshPlatform_platOK score cy rng)
      · exact Or.inr h2
    next => exact Or.inl h

theorem genContLoop_mem : ∀ (fuel : ℕ) (cy target : ℚ) (score : ℤ)
    (plats : List Platform) (num : ℕ) (rng : List ℕ) (p : Platform),
    p ∈ (genContLoop fuel cy target score plats num rng).1 →
    p ∈ plats ∨ platOK p = true := by
  intro fuel
  induction fuel with
  | zero => exact fun _ _ _ _ _ _ _ h => Or.inl h
  | succ n ih =>
    intro cy target score plats num rng p h
    unfold genContLoop at h
    split at h
    next =>
      rcases ih _ _ _ _ _ _ _ h with h1 | h2
      · rcases List.mem_or_eq_of_mem_set h1 with h3 | h4
        · exact Or.inl h3
        · exact Or.inr (h4 ▸ freshPlatform_platOK score cy rng)
      · exact Or.inr h2
    next => exact Or.inl h

/-- C10: a platform produced by the shared type-assignment logic is MOVING
with speed clamped into [1/2, 1] or non-MOVING with zero speed and
direction; consequently after either generation mode every platform in the
pool is a carried-over entry of the previous array or satisfies this
invariant (the fixed starting platform does as well). -/
theorem generated_platform_kinematics :
    (∀ (score : ℤ) (rng : List ℕ) (p : Platform),
      ((assignTypeKinematics score rng p).1.type = PlatformType.MOVING →
        1/2 ≤ (assignTypeKinematics score rng p).1.move_speed ∧
        (assignTypeKinematics score rng p).1.move_speed ≤ 1) ∧
      ((assignTypeKinematics score rng p).1.type ≠ PlatformType.MOVING →
        (assignTypeKinematics score rng p).1.move_speed = 0 ∧
        (assignTypeKinematics score rng p).1.move_direction = 0)) ∧
    (∀ (g : GameState) (p : Platform),
      p ∈ (generate_platforms g true).platforms →
      p ∈ g.platforms ∨ platOK p = true) ∧
    (∀ (g : GameState) (p : Platform),
      p ∈ (generate_platforms g false).platforms →
      p ∈ g.platforms ∨ platOK p = true) := by
  refine ⟨fun score rng p => platOK_spec _ (assignTypeKinematics_platOK score rng p),
    ?_, ?_⟩
  · intro g p h
    unfold generate_platforms generateInitial at h
    simp only [if_true] at h
    rcases genInitialLoop_mem _ _ _ _ _ _ _ h with h1 | h2
    · rcases List.mem_or_eq_of_mem_set h1 with h3 | h4
      · exact Or.inl h3
      · refine Or.inr ?_
        rw [h4]
        rfl
    · exact Or.inr h2
  · intro g p h
    unfold generate_platforms generateContinuous at h
    simp only [Bool.false_eq_true, if_false] at h
    exact genContLoop_mem _ _ _ _ _ _ _ _ h

/-- Concrete pool for continuous generation. -/
def genDemoState : GameState :=
  { player :=
      { x := 0, y := 400, vx := 0, vy := 0, width := 40, height := 40,
        on_ground := false, facing_direction := 1, is_shooting := false,
        shoot_timer := 0 },
    platforms := [default, default], num_platforms := 2,
    projectiles := [], num_projectiles := 0,
    monsters := [], num_monsters := 0, camera_y := 0, score := 0,
    platforms_landed := 0, last_platform_landed := -1, game_running := true,
    rng := [87, 0, 3] }

/-- C10 witness: the MOVING clamp evaluated on a concrete draw whose raw
speed would be below 1/2, and the generation-level facts evaluated on
concrete pools. -/
theorem generated_platform_kinematics_witness :
    ((assignTypeKinematics 0 [87, 0, 3] default).1.type =
        PlatformType.MOVING ∧
      1/2 ≤ (assignTypeKinematics 0 [87, 0, 3] default).1.move_speed ∧
      (assignTypeKinematics 0 [87, 0, 3] default).1.move_speed ≤ 1) ∧
    ((generate_platforms genDemoState false).platforms.getD 0 default ∈
        (generate_platforms genDemoState false).platforms ∧
      ((generate_platforms genDemoState false).platforms.getD 0 default ∈
          genDemoState.platforms ∨
        platOK ((generate_platforms genDemoState false).platforms.getD 0
          default) = true)) := by
  refine ⟨⟨?ht, generated_platform_kinematics.1 0 [87, 0, 3] default |>.1 ?ht⟩,
    ⟨?hm, generated_platform_kinematics.2.2 genDemoState _ ?hm⟩⟩
  case ht => with_unfolding_all decide
  case hm => with_unfolding_all decide

/-! ### C7: pool capacities and silent no-ops -/

theorem genInitialLoop_num : ∀ (fuel : ℕ) (cy : ℚ) (score : ℤ)
    (plats : List Platform) (num : ℕ) (rng : List ℕ),
    (genInitialLoop fuel cy score plats num rng).2.1 ≤ num + fuel := by
  intro fuel
  induction fuel with
  | zero => intro _ _ _ num _; exact Nat.le_refl _
  | succ n ih =>
    intro cy score plats num rng
    unfold genInitialLoop
    split
    next => exact le_trans (ih _ _ _ _ _) (by omega)
    next =>
      show num ≤ num + (n + 1)
      omega

theorem genContLoop_num : ∀ (fuel : ℕ) (cy target : ℚ) (score : ℤ)
    (plats : List Platform) (num : ℕ) (rng : List ℕ),
    num ≤ MAX_PLATFORMS →
    (genContLoop fuel cy target score plats num rng).2.1 ≤ MAX_PLATFORMS := by
  intro fuel
  induction fuel with
  | zero => exact fun _ _ _ _ _ _ h => h
  | succ n ih =>
    intro cy target score plats num rng h
    unfold genContLoop
    split
    next hg =>
      refine ih _ _ _ _ _ _ ?_
      split
      next => exact hg.2
      next => exact h
    next => exact h

theorem generateContinuous_num_platforms (g : GameState)
    (h : g.num_platforms ≤ MAX_PLATFORMS) :
    (generateContinuous g).num_platforms ≤ MAX_PLATFORMS :=
  genContLoop_num _ _ _ _ _ _ _ h

theorem prePhase_num_platforms (g : GameState) (dt : ℚ)
    (h : g.num_platforms ≤ MAX_PLATFORMS) :
    (prePhase g dt).num_platforms ≤ MAX_PLATFORMS :=
  generateContinuous_num_platforms _ h

theorem prePhase_num_projectiles (g : GameState) (dt : ℚ) :
    (prePhase g dt).num_projectiles = g.num_projectiles := rfl

theorem prePhase_num_monsters (g : GameState) (dt : ℚ) :
    (prePhase g dt).num_monsters = g.num_monsters := rfl

theorem collisionPhase_num_platforms (g : GameState) :
    (collisionPhase g).num_platforms = g.num_platforms := by
  unfold collisionPhase
  cases landingIndex g.player g.platforms g.num_platforms with
  | none => rfl
  | some i => simp only []; split <;> rfl

theorem collisionPhase_num_projectiles (g : GameState) :
    (collisionPhase g).num_projectiles = g.num_projectiles := by
  unfold collisionPhase
  cases landingIndex g.player g.platforms g.num_platforms with
  | none => rfl
  | some i => simp only []; split <;> rfl

theorem collisionPhase_num_monsters (g : GameState) :
    (collisionPhase g).num_monsters = g.num_monsters := by
  unfold collisionPhase
  cases landingIndex g.player g.platforms g.num_platforms with
  | none => rfl
  | some i => simp only []; split <;> rfl

theorem update_camera_num_platforms (g : GameState) :
    (update_camera g).num_platforms = g.num_platforms := by
  unfold update_camera
  dsimp only
  split <;> rfl

theorem update_camera_num_projectiles (g : GameState) :
    (update_camera g).num_projectiles = g.num_projectiles := by
  unfold update_camera
  dsimp only
  split <;> rfl

theorem update_camera_num_monsters (g : GameState) :
    (update_camera g).num_monsters = g.num_monsters := by
  unfold update_camera
  dsimp only
  split <;> rfl

theorem update_projectiles_num_platforms (g : GameState) (dt : ℚ) :
    (update_projectiles g dt).num_platforms = g.num_platforms := rfl

theorem update_projectiles_num_monsters (g : GameState) (dt : ℚ) :
    (update_projectiles g dt).num_monsters = g.num_monsters := rfl

theorem update_projectiles_num_le (g : GameState) (dt : ℚ) :
    (update_projectiles g dt).num_projectiles ≤ g.num_projectiles :=
  compact_count_le _ _ _

theorem spawn_monster_num_platforms (g : GameState) (x y : ℚ) :
    (spawn_monster g x y).num_platforms = g.num_platforms := by
  unfold spawn_monster
  split
  next => rfl
  next => split <;> rfl

theorem spawn_monster_num_projectiles (g : GameState) (x y : ℚ) :
    (spawn_monster g x y).num_projectiles = g.num_projectiles := by
  unfold spawn_monster
  split
  next => rfl
  next => split <;> rfl

theorem spawn_monster_num (g : GameState) (x y : ℚ)
    (h : g.num_monsters ≤ MAX_MONSTERS) :
    (spawn_monster g x y).num_monsters ≤ MAX_MONSTERS := by
  unfold spawn_monster
  split
  next => exact h
  next hcap =>
    split
    next => exact h
    next => exact Nat.succ_le_of_lt (Nat.lt_of_not_le hcap)

theorem update_monsters_num_platforms (g : GameState) (dt : ℚ) :
    (update_monsters g dt).num_platforms = g.num_platforms := by
  unfold update_monsters
  dsimp only
  repeat' split
  all_goals first
    | rw [spawn_monster_num_platforms]
    | rfl

theorem update_monsters_num_projectiles (g : GameState) (dt : ℚ) :
    (update_monsters g dt).num_projectiles = g.num_projectiles := by
  unfold update_monsters
  dsimp only
  repeat' split
  all_goals first
    | rw [spawn_monster_num_projectiles]
    | rfl

theorem update_monsters_num (g : GameState) (dt : ℚ)
    (h : g.num_monsters ≤ MAX_MONSTERS) :
    (update_monsters g dt).num_monsters ≤ MAX_MONSTERS := by
  unfold update_monsters
  dsimp only
  have hc : (compact (fun m => m.active)
      (mapUpTo (monsterStep g.camera_y dt) g.num_monsters g.monsters)
      g.num_monsters).2 ≤ MAX_MONSTERS :=
    le_trans (compact_count_le _ _ _) h
  repeat' split
  all_goals first
    | exact hc
    | ((refine spawn_monster_num _ _ _ ?_) ; exact hc)

theorem pmCollisionsStage_num_platforms (g : GameState) :
    (pmCollisionsStage g).num_platforms = g.num_platforms := rfl

theorem pmCollisionsStage_num_projectiles (g : GameState) :
    (pmCollisionsStage g).num_projectiles = g.num_projectiles := rfl

theorem pmCollisionsStage_num_monsters (g : GameState) :
    (pmCollisionsStage g).num_monsters = g.num_monsters := rfl

theorem playerMonsterStage_num_platforms (g : GameState) :
    (playerMonsterStage g).num_platforms = g.num_platforms := by
  unfold playerMonsterStage
  split <;> rfl

theorem playerMonsterStage_num_projectiles (g : GameState) :
    (playerMonsterStage g).num_projectiles = g.num_projectiles := by
  unfold playerMonsterStage
  split <;> rfl

theorem playerMonsterStage_num_monsters (g : GameState) :
    (playerMonsterStage g).num_monsters = g.num_monsters := by
  unfold playerMonsterStage
  split <;> rfl

theorem scoreUpdate_num_platforms (g : GameState) :
    (scoreUpdate g).num_platforms = g.num_platforms := by
  unfold scoreUpdate
  dsimp only
  split <;> rfl

theorem scoreUpdate_num_projectiles (g : GameState) :
    (scoreUpdate g).num_projectiles = g.num_projectiles := by
  unfold scoreUpdate
  dsimp only
  split <;> rfl

theorem scoreUpdate_num_monsters (g : GameState) :
    (scoreUpdate g).num_monsters = g.num_monsters := by
  unfold scoreUpdate
  dsimp only
  split <;> rfl

theorem finalCheck_num_platforms (g : GameState) :
    (finalCheck g).num_platforms = g.num_platforms := by
  unfold finalCheck
  split <;> rfl

theorem finalCheck_num_projectiles (g : GameState) :
    (finalCheck g).num_projectiles = g.num_projectiles := by
  unfold finalCheck
  split <;> rfl

theorem finalCheck_num_monsters (g : GameState) :
    (finalCheck g).num_monsters = g.num_monsters := by
  unfold finalCheck
  split <;> rfl

/-- The pool-capacity invariant of the three entity pools. -/
def poolBounds (g : GameState) : Prop :=
  g.num_platforms ≤ MAX_PLATFORMS ∧ g.num_projectiles ≤ MAX_PROJECTILES ∧
    g.num_monsters ≤ MAX_MONSTERS

theorem update_game_poolBounds (g : GameState) (dt : ℚ) (h : poolBounds g) :
    poolBounds (update_game g dt) := by
  obtain ⟨h1, h2, h3⟩ := h
  unfold update_game
  split
  next =>
    unfold preFinal
    refine ⟨?_, ?_, ?_⟩
    · rw [finalCheck_num_platforms, scoreUpdate_num_platforms,
        playerMonsterStage_num_platforms, pmCollisionsStage_num_platforms,
        update_monsters_num_platforms, update_projectiles_num_platforms,
        update_camera_num_platforms, collisionPhase_num_platforms]
      exact prePhase_num_platforms g dt h1
    · rw [finalCheck_num_projectiles, scoreUpdate_num_projectiles,
        playerMonsterStage_num_projectiles, pmCollisionsStage_num_projectiles,
        update_monsters_num_projectiles]
      refine le_trans (update_projectiles_num_le _ _) ?_
      rw [update_camera_num_projectiles, collisionPhase_num_projectiles,
        prePhase_num_projectiles]
      exact h2
    · rw [finalCheck_num_monsters, scoreUpdate_num_monsters,
        playerMonsterStage_num_monsters, pmCollisionsStage_num_monsters]
      refine update_monsters_num _ _ ?_
      rw [update_projectiles_num_monsters, update_camera_num_monsters,
        collisionPhase_num_monsters, prePhase_num_monsters]
      exact h3
  next => exact ⟨h1, h2, h3⟩

theorem init_game_poolBounds (g : GameState) : poolBounds (init_game g) := by
  unfold init_game
  dsimp only
  have hnum : ∀ g2 : GameState,
      (generate_platforms g2 true).num_platforms ≤ MAX_PLATFORMS := by
    intro g2
    unfold generate_platforms generateInitial
    simp only [if_true]
    exact genInitialLoop_num 99 _ _ _ 1 _
  split
  next => exact ⟨hnum _, Nat.zero_le _, Nat.zero_le _⟩
  next => exact ⟨hnum _, Nat.zero_le _, Nat.zero_le _⟩

theorem shoot_projectile_poolBounds (g : GameState) (h : poolBounds g) :
    poolBounds (shoot_projectile g) := by
  obtain ⟨h1, h2, h3⟩ := h
  unfold shoot_projectile
  split
  next => exact ⟨h1, h2, h3⟩
  next hc =>
    refine ⟨h1, ?_, h3⟩
    have : ¬ g.num_projectiles ≥ MAX_PROJECTILES := by
      intro hge
      exact hc (by simp [hge])
    exact Nat.succ_le_of_lt (Nat.lt_of_not_le this)

theorem spawn_monster_poolBounds (g : GameState) (x y : ℚ)
    (h : poolBounds g) : poolBounds (spawn_monster g x y) := by
  obtain ⟨h1, h2, h3⟩ := h
  exact ⟨by rw [spawn_monster_num_platforms]; exact h1,
    by rw [spawn_monster_num_projectiles]; exact h2,
    spawn_monster_num g x y h3⟩

theorem reachable_poolBounds (g : GameState) (h : Reachable g) :
    poolBounds g := by
  induction h with
  | boot rng => exact init_game_poolBounds _
  | step g dt _ ih => exact update_game_poolBounds g dt ih
  | shoot g _ ih => exact shoot_projectile_poolBounds g ih
  | spawn g x y _ ih => exact spawn_monster_poolBounds g x y ih
  | restart g _ _ => exact init_game_poolBounds g

/-- C7: on every reachable state the live counts respect the fixed pool
capacities, and a creation attempt on a full pool is a silent no-op leaving
the whole game state unchanged. -/
theorem pool_capacities_and_silent_noop :
    (∀ g : GameState, Reachable g →
      g.num_platforms ≤ MAX_PLATFORMS ∧
      g.num_projectiles ≤ MAX_PROJECTILES ∧
      g.num_monsters ≤ MAX_MONSTERS) ∧
    (∀ g : GameState, MAX_PROJECTILES ≤ g.num_projectiles →
      shoot_projectile g = g) ∧
    (∀ (g : GameState) (x y : ℚ), MAX_MONSTERS ≤ g.num_monsters →
      spawn_monster g x y = g) := by
  refine ⟨fun g h => reachable_poolBounds g h, ?_, ?_⟩
  · intro g h
    unfold shoot_projectile
    rw [if_pos (by simp [h])]
  · intro g x y h
    unfold spawn_monster
    rw [if_pos h]

/-- Concrete state with a full projectile pool. -/
def fullProjState : GameState :=
  { player :=
      { x := 100, y := 300, vx := 0, vy := 0, width := 40, height := 40,
        on_ground := false, facing_direction := 1, is_shooting := false,
        shoot_timer := 0 },
    platforms := [], num_platforms := 0, projectiles := [],
    num_projectiles := 10, monsters := [], num_monsters := 0,
    camera_y := 0, score := 0, platforms_landed := 0,
    last_platform_landed := -1, game_running := true, rng := [] }

/-- Concrete state with a full monster pool. -/
def fullMonState : GameState :=
  { fullProjState with num_projectiles := 0, num_monsters := 20 }

/-- C7 witness: the capacity bounds on the concrete boot state, and the
silent no-ops on concrete full pools. -/
theorem pool_capacities_and_silent_noop_witness :
    ((init_game (zeroState [])).num_platforms ≤ MAX_PLATFORMS ∧
      (init_game (zeroState [])).num_projectiles ≤ MAX_PROJECTILES ∧
      (init_game (zeroState [])).num_monsters ≤ MAX_MONSTERS) ∧
    (MAX_PROJECTILES ≤ fullProjState.num_projectiles ∧
      shoot_projectile fullProjState = fullProjState) ∧
    (MAX_MONSTERS ≤ fullMonState.num_monsters ∧
      spawn_monster fullMonState 5 5 = fullMonState) :=
  ⟨pool_capacities_and_silent_noop.1 _ (Reachable.boot []),
    ⟨by decide, pool_capacities_and_silent_noop.2.1 fullProjState (by decide)⟩,
    ⟨by decide, pool_capacities_and_silent_noop.2.2 fullMonState 5 5 (by decide)⟩⟩
